import Mathlib

/-
Verification of the instaseis seismogram-synthesis pipeline
(src/instaseis/base_instaseis_db.py) and the spectral-basis wrappers
(src/axisem_db/spectral_basis.py).

Python floats are modelled as exact rationals (ℚ).  External collaborators
(numpy FFT routines, scipy cumtrapz, np.gradient, and the lanczos resampling
module, which is not part of the sources) are modelled as opaque function
parameters gathered in the Extern structure; everything the repository itself
computes (orders, shifts, rounding, error checks, accumulation) is embedded
concretely.
-/

namespace Instaseis

abbrev Comp := String

/-- Python round-half-even of a rational to an integer (the semantics of
round() on an exactly representable value). -/
def roundHalfEven (x : ℚ) : ℤ :=
  let n := ⌊x⌋
  let frac := x - (n : ℚ)
  if frac < 1 / 2 then n
  else if 1 / 2 < frac then n + 1
  else if n % 2 = 0 then n else n + 1

/-- Python round(x, n): round to n decimal places, half to even. -/
def pyRound (x : ℚ) (n : ℕ) : ℚ :=
  (roundHalfEven (x * 10 ^ n) : ℚ) / 10 ^ n

/-- Python int(x): truncation toward zero. -/
def pyInt (x : ℚ) : ℤ :=
  if 0 ≤ x then ⌊x⌋ else ⌈x⌉

/-- Python x % d for d > 0 (floor-division remainder). -/
def pyMod (x d : ℚ) : ℚ :=
  x - d * (⌊x / d⌋ : ℤ)

/-- Python list slicing xs[k:] including the negative-index convention. -/
def pySliceFrom (k : ℤ) (xs : List ℚ) : List ℚ :=
  if 0 ≤ k then xs.drop k.toNat else xs.drop ((xs.length : ℤ) + k).toNat

/-- Lookup in an insertion-ordered association list (Python dict read;
none models a KeyError at the call site). -/
def getKey {α : Type} : List (Comp × α) → Comp → Option α
  | [], _ => none
  | (k, v) :: rest, c => if k = c then some v else getKey rest c

/-- Write to an insertion-ordered association list (Python dict write:
overwrite in place, or append a fresh key). -/
def setKey {α : Type} : List (Comp × α) → Comp → α → List (Comp × α)
  | [], c, v => [(c, v)]
  | (k, w) :: rest, c, v => if k = c then (c, v) :: rest else (k, w) :: setKey rest c v

/-- Errors raised by the pipeline (ValueError, NotImplementedError, KeyError,
UnboundLocalError and numpy shape errors are distinguished by constructor). -/
inductive Err
  | unknownKind
  | invalidComponent
  | verticalOnlyDB
  | horizontalOnlyDB
  | keyError
  | reconvolveWithRemoveShift
  | noSourceTimeFunction
  | deconvNotImplemented
  | sourceDtIncompatible
  | unboundLocal
  | shapeMismatch
  | finiteNotReciprocal
  | negativeDimension
  deriving DecidableEq, Repr

/-- Moment-tensor source versus ForceSource (isinstance check in the code). -/
inductive SrcKind
  | moment
  | force
  deriving DecidableEq, Repr

/-- The fields of instaseis source objects that the pipeline reads. -/
structure Source where
  kind : SrcKind
  dt : Option ℚ
  sliprate : Option (List ℚ)
  time_shift : Option ℚ
  origin_time : Option ℚ
  deriving DecidableEq, Repr

/-- The fields of the receiver object that the pipeline reads. -/
structure Receiver where
  station : String
  network : String
  deriving DecidableEq, Repr

/-- DatabaseInfo metadata (the keys of self.info the pipeline reads). -/
structure Info where
  is_reciprocal : Bool
  components : List String
  dt : ℚ
  npts : ℕ
  nfft : ℕ
  stf : String
  slip : List ℚ
  sliprate : List ℚ
  src_shift : ℚ
  src_shift_samples : ℕ
  deriving DecidableEq, Repr

/-- The dictionary returned by the abstract _get_seismograms: one raw series
per requested component plus the shear modulus mu at the source. -/
structure RawData where
  series : List (Comp × List ℚ)
  mu : ℚ
  deriving DecidableEq, Repr

/-- A database handle: its metadata and its abstract _get_seismograms
implementation (the storage layer is an external collaborator). -/
structure Db where
  info : Info
  extract : Source → Receiver → List Comp → RawData

/-- External numeric collaborators: the frequency-domain STF reconvolution
(numpy rfft/irfft arithmetic of lines 128-148), the lanczos resampling module
(absent from the sources; spec section 6 specifies its interface), np.gradient
and scipy cumtrapz.  Their arguments are exactly the ones the code passes. -/
structure Extern where
  reconvolve : ℕ → ℕ → List ℚ → List ℚ → Option ℚ → ℚ → List ℚ → List ℚ
  lanczos : List ℚ → ℚ → ℚ → ℚ → ℚ → ℤ → ℕ → List ℚ
  gradient : ℚ → List ℚ → List ℚ
  cumtrapz : ℚ → List ℚ → List ℚ

/-- Relative tolerance 1e-7 used for the source dt compatibility check. -/
def tol : ℚ := 1 / 10 ^ 7

/-- DEFAULT_MU = 32e9, the reference shear modulus. -/
def DEFAULT_MU : ℚ := 32 * 10 ^ 9

/-- kind_map of get_seismograms. -/
def kind_map : List (Comp × ℤ) :=
  [("displacement", 0), ("velocity", 1), ("acceleration", 2)]

/-- stf_map of get_seismograms. -/
def stf_map : List (Comp × ℤ) :=
  [("errorf", 0), ("quheavi", 0), ("dirac_0", 1), ("gauss_0", 1),
   ("gauss_1", 2), ("gauss_2", 3)]

/-- Scalar multiplication of a series.  In the code the correct_mu factor is a
one-element tuple (trailing comma on line 293); numpy broadcasting makes the
product identical to scalar multiplication. -/
def cmul (c : ℚ) (xs : List ℚ) : List ℚ := xs.map (fun x => c * x)

/-- Componentwise numpy addition: a shape mismatch is a broadcast error. -/
def npAdd (a b : List ℚ) : Except Err (List ℚ) :=
  if a.length = b.length then .ok (List.zipWith (fun x y => x + y) a b)
  else .error .shapeMismatch

/-- The _get_seismograms_sanity_checks method (lines 335-389): kind check,
component-code check, and the component-availability checks of a reciprocal
database.  Source/receiver parsing applies only to untyped inputs and the
depth checks emit non-fatal warnings, so neither is modelled. -/
def sanityChecks (info : Info) (components : List Comp) (kind : String) :
    Except Err Unit :=
  if kind ∉ (["displacement", "velocity", "acceleration"] : List String) then
    .error .unknownKind
  else if components.any
      (fun c => decide (c ∉ (["N", "E", "Z", "R", "T"] : List Comp))) then
    .error .invalidComponent
  else if info.is_reciprocal
      ∧ (["N", "E", "R", "T"] : List Comp).any (fun c => components.contains c)
      ∧ "horizontal" ∉ info.components then
    .error .verticalOnlyDB
  else if info.is_reciprocal ∧ "Z" ∈ components
      ∧ "vertical" ∉ info.components then
    .error .horizontalOnlyDB
  else .ok ()

/-- n_derivative of lines 107-112: kind order minus stored-STF order, plus 2
for a ForceSource; none models the KeyError of an unknown tag. -/
def nDerivative (kind stf : String) (source : Source) : Option ℤ :=
  match getKey kind_map kind, getKey stf_map stf with
  | some k, some s =>
      some (if source.kind = SrcKind.force then k - s + 2 else k - s)
  | _, _ => none

/-- The resampling block of lines 150-165: alignment shift, output length and
the lanczos call, together with the remaining time shift. -/
def resampleStage (ext : Extern) (info : Info) (dtv : ℚ) (a : ℕ)
    (xs : List ℚ) : List ℚ × ℚ :=
  let shift := pyRound (pyMod info.src_shift dtv) 8
  let duration := ((xs.length : ℚ) - 1) * info.dt - shift
  let new_npts := pyInt (pyRound (duration / dtv) 6) + 1
  (ext.lanczos xs 0 info.dt shift dtv new_npts a, info.src_shift - shift)

/-- The derivative/integration loops of lines 171-176: np.arange makes the
gradient loop run n times for n > 0 and the cumtrapz loop -n times for n < 0
(a negative argument to np.arange yields an empty range). -/
def derivStage (ext : Extern) (dt_out : ℚ) (n : ℤ) (xs : List ℚ) : List ℚ :=
  Nat.iterate (ext.cumtrapz dt_out) (-n).toNat
    (Nat.iterate (ext.gradient dt_out) n.toNat xs)

/-- One iteration of the per-component loop (lines 118-189).  The data[comp]
dictionary read is lazy in Python, so the series travels as an Option and is
forced (KeyError on none) exactly where the code first reads it: inside the
reconvolution branch after its validation checks, at the resampling block, at
a nonempty derivative loop, and at the shift-removal slice. -/
def compBody (ext : Extern) (info : Info) (source : Source) (sOrd nDer : ℤ)
    (remove reconv : Bool) (dt : Option ℚ) (dt_out : ℚ) (a : ℕ)
    (series? : Option (List ℚ)) : Except Err (Option (List ℚ) × ℚ) :=
  let step1 : Except Err (Option (List ℚ)) :=
    if reconv then
      match source.dt, source.sliprate with
      | some sdt, some sr =>
        if ¬ (sOrd = 0 ∨ sOrd = 1) then .error .deconvNotImplemented
        else
          let kernel := if sOrd = 0 then info.sliprate else info.slip
          if |(sdt - info.dt) / info.dt| > tol then .error .sourceDtIncompatible
          else
            match series? with
            | some xs => .ok (some (ext.reconvolve info.nfft info.npts kernel
                sr source.time_shift info.dt xs))
            | none => .error .keyError
      | _, _ => .error .noSourceTimeFunction
    else .ok series?
  match step1 with
  | .error e => .error e
  | .ok afterReconv =>
    let step2 : Except Err (Option (List ℚ) × ℚ) :=
      match dt with
      | some dtv =>
        match afterReconv with
        | some xs =>
          let r := resampleStage ext info dtv a xs
          .ok (some r.1, r.2)
        | none => .error .keyError
      | none => .ok (afterReconv, info.src_shift)
    match step2 with
    | .error e => .error e
    | .ok (afterResample, ts) =>
      let step3 : Except Err (Option (List ℚ)) :=
        if nDer = 0 then .ok afterResample
        else
          match afterResample with
          | some xs => .ok (some (derivStage ext dt_out nDer xs))
          | none => .error .keyError
      match step3 with
      | .error e => .error e
      | .ok afterDeriv =>
        if remove then
          match afterDeriv with
          | some xs =>
            match dt with
            | some dtv => .ok (some (pySliceFrom (pyInt (ts / dtv)) xs), 0)
            | none => .ok (some (xs.drop info.src_shift_samples), 0)
          | none => .error .keyError
        else if reconv then .ok (afterDeriv, 0)
        else .ok (afterDeriv, ts)

/-- The for-comp-in-components loop: the data dictionary and the time_shift
local variable (none while still unassigned) are threaded through. -/
def compLoop (ext : Extern) (info : Info) (source : Source) (sOrd nDer : ℤ)
    (remove reconv : Bool) (dt : Option ℚ) (dt_out : ℚ) (a : ℕ) :
    List Comp → List (Comp × List ℚ) × Option ℚ →
    Except Err (List (Comp × List ℚ) × Option ℚ)
  | [], st => .ok st
  | c :: rest, (ds, _) =>
    match compBody ext info source sOrd nDer remove reconv dt dt_out a
        (getKey ds c) with
    | .error e => .error e
    | .ok (new?, ts) =>
      let ds1 := match new? with
        | some v => setKey ds c v
        | none => ds
      compLoop ext info source sOrd nDer remove reconv dt dt_out a rest
        (ds1, some ts)

/-- get_seismograms up to the return statement (lines 78-189): sanity checks,
extraction, order lookups, the mutual-exclusion check and the component loop.
The Bool records whether _get_seismograms was invoked before the outcome. -/
def getSeismogramsCore (ext : Extern) (db : Db) (source : Source)
    (receiver : Receiver) (components : List Comp) (kind : String)
    (remove reconv : Bool) (dt : Option ℚ) (a : ℕ) :
    Bool × Except Err (RawData × Option ℚ) :=
  match sanityChecks db.info components kind with
  | .error e => (false, .error e)
  | .ok _ =>
    let rd := db.extract source receiver components
    let dt_out := dt.getD db.info.dt
    (true,
      match getKey kind_map kind with
      | none => .error .keyError
      | some kOrd =>
        match getKey stf_map db.info.stf with
        | none => .error .keyError
        | some sOrd =>
          let nDer := if source.kind = SrcKind.force then kOrd - sOrd + 2
            else kOrd - sOrd
          if reconv && remove then .error .reconvolveWithRemoveShift
          else
            match compLoop ext db.info source sOrd nDer remove reconv dt
                dt_out a components (rd.series, none) with
            | .error e => .error e
            | .ok st => .ok (⟨st.1, rd.mu⟩, st.2))

/-- Trace assembly: read data[comp] for every requested component
(KeyError when absent). -/
def tracesFor (series : List (Comp × List ℚ)) :
    List Comp → Except Err (List (Comp × List ℚ))
  | [] => .ok []
  | c :: rest =>
    match getKey series c with
    | none => .error .keyError
    | some xs =>
      match tracesFor series rest with
      | .error e => .error e
      | .ok ts => .ok ((c, xs) :: ts)

/-- An ObsPy stream restricted to the fields the spec constrains: the
per-component data, the sampling interval and the start time. -/
structure SeisStream where
  traces : List (Comp × List ℚ)
  delta : ℚ
  starttime : ℚ
  deriving DecidableEq, Repr

/-- The _convert_to_stream static method (lines 199-221): origin time (epoch 0
when the source carries none) minus the remaining time shift becomes the start
time; station/network/channel naming is external formatting. -/
def convertToStream (source : Source) (components : List Comp) (rd : RawData)
    (dt_out : ℚ) (time_shift : ℚ) : Except Err SeisStream :=
  match tracesFor rd.series components with
  | .error e => .error e
  | .ok trs => .ok ⟨trs, dt_out, (source.origin_time.getD 0) - time_shift⟩

/-- Either return shape of get_seismograms. -/
inductive SeisReturn
  | raw (rd : RawData)
  | stream (st : SeisStream)
  deriving DecidableEq, Repr

instance {ε α : Type} [DecidableEq ε] [DecidableEq α] :
    DecidableEq (Except ε α) := fun a b =>
  match a, b with
  | .ok x, .ok y =>
    if h : x = y then .isTrue (by rw [h]) else .isFalse (by simp [h])
  | .error x, .error y =>
    if h : x = y then .isTrue (by rw [h]) else .isFalse (by simp [h])
  | .ok _, .error _ => .isFalse (by simp)
  | .error _, .ok _ => .isFalse (by simp)

/-- Outcome of get_seismograms plus whether _get_seismograms had run. -/
structure GsResult where
  extracted : Bool
  result : Except Err SeisReturn
  deriving DecidableEq, Repr

/-- get_seismograms (lines 36-197).  With return_obspy_stream the dangling
time_shift local is read: if no component iteration assigned it, that read is
an UnboundLocalError. -/
def getSeismograms (ext : Extern) (db : Db) (source : Source)
    (receiver : Receiver) (components : List Comp) (kind : String)
    (remove reconv stream : Bool) (dt : Option ℚ) (a : ℕ) : GsResult :=
  let r := getSeismogramsCore ext db source receiver components kind remove
    reconv dt a
  ⟨r.1,
    match r.2 with
    | .error e => .error e
    | .ok (rd, ts?) =>
      if stream then
        match ts? with
        | none => .error .unboundLocal
        | some ts =>
          match convertToStream source components rd (dt.getD db.info.dt) ts with
          | .error e => .error e
          | .ok st => .ok (.stream st)
      else .ok (.raw rd)⟩

/-- The correction factor of lines 292-295: local mu over DEFAULT_MU when
correct_mu is requested, otherwise 1.  (In the code the first branch builds a
one-element tuple; numpy broadcasting multiplies by the scalar.) -/
def corrFac (correct_mu : Bool) (rd : RawData) : ℚ :=
  if correct_mu then rd.mu / DEFAULT_MU else 1

/-- The inner for-comp-in-components accumulation of lines 297-301: read
data[comp], scale by the correction factor, and add into data_summed (or
initialize the entry on first sight of the component). -/
def sumStep (rd : RawData) (corr : ℚ) :
    List Comp → List (Comp × List ℚ) → Except Err (List (Comp × List ℚ))
  | [], ds => .ok ds
  | c :: rest, ds =>
    match getKey rd.series c with
    | none => .error .keyError
    | some xs =>
      match getKey ds c with
      | some prev =>
        match npAdd prev (cmul corr xs) with
        | .error e => .error e
        | .ok v => sumStep rd corr rest (setKey ds c v)
      | none => sumStep rd corr rest (setKey ds c (cmul corr xs))

/-- The for-source-in-sources loop of lines 287-305.  Each source goes through
get_seismograms with kind, dt and a_lanczos left at their defaults
(displacement, None, 5), reconvolve_stf=True, remove_source_shift=False and a
raw return.  The loop variable data survives the loop in Python, so the last
raw result is threaded through; .ok none is the early return None of a
cancelling progress callback. -/
def finiteLoop (ext : Extern) (db : Db) (receiver : Receiver)
    (components : List Comp) (correct_mu : Bool)
    (cb : Option (ℕ → ℕ → Bool)) (count : ℕ) :
    List Source → ℕ → List (Comp × List ℚ) → Option RawData →
    Except Err (Option (List (Comp × List ℚ) × Option RawData))
  | [], _, ds, last => .ok (some (ds, last))
  | s :: rest, i, ds, _ =>
    match (getSeismogramsCore ext db s receiver components "displacement"
        false true none 5).2 with
    | .error e => .error e
    | .ok (rd, _) =>
      match sumStep rd (corrFac correct_mu rd) components ds with
      | .error e => .error e
      | .ok ds1 =>
        match cb with
        | some f =>
          if f (i + 1) count then .ok none
          else finiteLoop ext db receiver components correct_mu cb count rest
            (i + 1) ds1 (some rd)
        | none => finiteLoop ext db receiver components correct_mu cb count
            rest (i + 1) ds1 (some rd)

/-- The final resampling pass of lines 307-319.  Faithful to the source, the
lanczos input (and the length entering duration) is data[comp] of the LAST
source processed, not data_summed[comp]; only the destination of the
assignment is data_summed.  With no source processed, reading the unbound
loop variable data is an UnboundLocalError. -/
def finiteResample (ext : Extern) (info : Info) (dtv : ℚ) (a : ℕ)
    (last : Option RawData) :
    List Comp → List (Comp × List ℚ) → Except Err (List (Comp × List ℚ))
  | [], ds => .ok ds
  | c :: rest, ds =>
    match last with
    | none => .error .unboundLocal
    | some rd =>
      match getKey rd.series c with
      | none => .error .keyError
      | some xs =>
        let starttime := pyRound (info.src_shift -
          (pyInt (pyRound (info.src_shift / dtv) 5) : ℚ) * dtv) 5
        let duration := ((xs.length : ℚ) - 1) * info.dt - starttime
        let new_npts := pyInt (pyRound (duration / dtv) 5) + 1
        finiteResample ext info dtv a last rest
          (setKey ds c (ext.lanczos xs 0 info.dt starttime dtv new_npts a))

/-- The finite-source output stream: summed per-component series and the
output sampling interval. -/
structure FiniteOut where
  traces : List (Comp × List ℚ)
  delta : ℚ
  deriving DecidableEq, Repr

/-- get_seismograms_finite_source (lines 244-333): reciprocity precondition,
per-source accumulation, optional final resampling pass, stream assembly.
The kind argument is accepted but never forwarded to get_seismograms (the
inner calls run at the default displacement).  none models the cancelled
return None. -/
def getSeismogramsFiniteSource (ext : Extern) (db : Db) (sources : List Source)
    (receiver : Receiver) (components : List Comp) (_kind : String)
    (dt : Option ℚ) (a : ℕ) (correct_mu : Bool)
    (cb : Option (ℕ → ℕ → Bool)) : Except Err (Option FiniteOut) :=
  if !db.info.is_reciprocal then .error .finiteNotReciprocal
  else
    match finiteLoop ext db receiver components correct_mu cb sources.length
        sources 0 [] none with
    | .error e => .error e
    | .ok none => .ok none
    | .ok (some (ds, last)) =>
      match dt with
      | some dtv =>
        match finiteResample ext db.info dtv a last components ds with
        | .error e => .error e
        | .ok ds1 =>
          match tracesFor ds1 components with
          | .error e => .error e
          | .ok trs => .ok (some ⟨trs, dtv⟩)
      | none =>
        match tracesFor ds components with
        | .error e => .error e
        | .ok trs => .ok (some ⟨trs, db.info.dt⟩)

/-- np.zeros for a one-dimensional shape: a negative length is a ValueError. -/
def npZeros1 (n : ℤ) : Except Err (List ℚ) :=
  if n < 0 then .error .negativeDimension
  else .ok (List.replicate n.toNat 0)

/-- np.zeros for a square two-dimensional shape. -/
def npZeros2 (n m : ℤ) : Except Err (List (List ℚ)) :=
  if n < 0 ∨ m < 0 then .error .negativeDimension
  else .ok (List.replicate n.toNat (List.replicate m.toNat 0))

/-- The compiled AxiSEM kernel reached through ctypes (external code): each
routine receives the order and the freshly allocated output buffer. -/
structure SpectralLib where
  zelegl_f : ℤ → List ℚ → List ℚ
  zemngl2_f : ℤ → List ℚ → List ℚ
  dlg_gll : ℤ → List (List ℚ) → List (List ℚ)
  dlg_glj : ℤ → List (List ℚ) → List ℚ → List ℚ × List (List ℚ)

/-- zelegl wrapper (spectral_basis.py lines 24-27): allocate n+1 zeros, call
the kernel.  No order validation of any kind. -/
def zelegl (lib : SpectralLib) (n : ℤ) : Except Err (List ℚ) :=
  match npZeros1 (n + 1) with
  | .error e => .error e
  | .ok data => .ok (lib.zelegl_f n data)

/-- zemngl2 wrapper (lines 30-33). -/
def zemngl2 (lib : SpectralLib) (n : ℤ) : Except Err (List ℚ) :=
  match npZeros1 (n + 1) with
  | .error e => .error e
  | .ok data => .ok (lib.zemngl2_f n data)

/-- def_lagrange_derivs_gll wrapper (lines 36-40). -/
def def_lagrange_derivs_gll (lib : SpectralLib) (npol : ℤ) :
    Except Err (List (List ℚ)) :=
  match npZeros2 (npol + 1) (npol + 1) with
  | .error e => .error e
  | .ok g => .ok (lib.dlg_gll npol g)

/-- def_lagrange_derivs_glj wrapper (lines 43-49): allocates G0 then G1 and
calls the kernel (the code passes both buffers to the gll symbol). -/
def def_lagrange_derivs_glj (lib : SpectralLib) (npol : ℤ) :
    Except Err (List ℚ × List (List ℚ)) :=
  match npZeros1 (npol + 1) with
  | .error e => .error e
  | .ok g0 =>
    match npZeros2 (npol + 1) (npol + 1) with
    | .error e => .error e
    | .ok g1 => .ok (lib.dlg_glj npol g1 g0)

/-- Identity-like external collaborators, used to evaluate the pipeline on
concrete inputs. -/
def extId : Extern where
  reconvolve := fun _ _ _ _ _ _ xs => xs
  lanczos := fun data _ _ _ _ _ _ => data
  gradient := fun _ xs => xs
  cumtrapz := fun _ xs => xs

/-- External collaborators whose resampler reports the new start time it was
invoked with as its single output sample. -/
def extProbe : Extern where
  reconvolve := fun _ _ _ _ _ _ xs => xs
  lanczos := fun _ _ _ ns _ _ _ => [ns]
  gradient := fun _ xs => xs
  cumtrapz := fun _ xs => xs

/-- A concrete receiver. -/
def rec0 : Receiver := ⟨"STA", "NET"⟩

/-- A concrete reciprocal database metadata block with an errorf STF. -/
def info0 : Info where
  is_reciprocal := true
  components := ["vertical", "horizontal"]
  dt := 1
  npts := 2
  nfft := 4
  stf := "errorf"
  slip := [1, 1]
  sliprate := [0, 1]
  src_shift := 0
  src_shift_samples := 0

/-- A database over info0 whose extraction distinguishes the two concrete
sources below by their origin time. -/
def db0 : Db where
  info := info0
  extract := fun s _ _ =>
    if s.origin_time = some 1 then ⟨[("Z", [2, 2])], 1⟩
    else ⟨[("Z", [1, 1])], 1⟩

/-- A database over info0 whose extraction reports shear modulus 64e9 (twice
DEFAULT_MU), again distinguishing the two concrete sources. -/
def db2 : Db where
  info := info0
  extract := fun s _ _ =>
    if s.origin_time = some 1 then ⟨[("Z", [2, 2])], 64 * 10 ^ 9⟩
    else ⟨[("Z", [1, 1])], 64 * 10 ^ 9⟩

/-- A moment-tensor source carrying an STF compatible with info0. -/
def src0 : Source := ⟨SrcKind.moment, some 1, some [1], none, some 0⟩

/-- A second such source, distinguished by its origin time. -/
def src1 : Source := ⟨SrcKind.moment, some 1, some [1], none, some 1⟩

/-- Database metadata whose stored STF tag gauss_1 has order 2 (not
deconvolvable). -/
def info5 : Info where
  is_reciprocal := false
  components := ["vertical", "horizontal"]
  dt := 1
  npts := 2
  nfft := 4
  stf := "gauss_1"
  slip := [1, 1]
  sliprate := [0, 1]
  src_shift := 0
  src_shift_samples := 0

/-- A database over info5 with constant extraction. -/
def db5 : Db where
  info := info5
  extract := fun _ _ _ => ⟨[("Z", [1, 1])], 1⟩

/-- A source with a sliprate but no sampling interval. -/
def src5 : Source := ⟨SrcKind.moment, none, some [1], none, some 0⟩

/-- Metadata whose source shift 1/3 is not an 8-decimal number. -/
def info6 : Info where
  is_reciprocal := true
  components := ["vertical", "horizontal"]
  dt := 1
  npts := 2
  nfft := 4
  stf := "errorf"
  slip := [1, 1]
  sliprate := [0, 1]
  src_shift := 1 / 3
  src_shift_samples := 0

/-- A spectral kernel that returns its buffer unchanged. -/
def lib0 : SpectralLib where
  zelegl_f := fun _ b => b
  zemngl2_f := fun _ b => b
  dlg_gll := fun _ g => g
  dlg_glj := fun _ g1 g0 => (g0, g1)

theorem getKey_setKey_self {α : Type} (d : List (Comp × α)) (c : Comp)
    (v : α) : getKey (setKey d c v) c = some v := by
  induction d with
  | nil => simp [setKey, getKey]
  | cons p rest ih =>
    obtain ⟨k, w⟩ := p
    by_cases h : k = c
    · simp [setKey, h, getKey]
    · simp [setKey, h, getKey, ih]

theorem getKey_setKey_ne {α : Type} (d : List (Comp × α)) (c c2 : Comp)
    (v : α) (h : c ≠ c2) : getKey (setKey d c v) c2 = getKey d c2 := by
  induction d with
  | nil => simp [setKey, getKey, h]
  | cons p rest ih =>
    obtain ⟨k, w⟩ := p
    by_cases hk : k = c
    · subst hk
      simp [setKey, getKey, h]
    · simp [setKey, hk, getKey, ih]

theorem cmul_one (xs : List ℚ) : cmul 1 xs = xs := by
  simp [cmul]

theorem cmul_length (c : ℚ) (xs : List ℚ) : (cmul c xs).length = xs.length := by
  simp [cmul]

theorem npAdd_ok (a b : List ℚ) (h : a.length = b.length) :
    npAdd a b = .ok (List.zipWith (fun x y => x + y) a b) := by
  simp [npAdd, h]

theorem zipWith_add_length (a b : List ℚ) (h : a.length = b.length) :
    (List.zipWith (fun x y => x + y) a b).length = a.length := by
  simp [List.length_zipWith, h]

theorem zipWith_add_replicate_zero (xs : List ℚ) :
    List.zipWith (fun x y => x + y) (List.replicate xs.length (0 : ℚ)) xs
      = xs := by
  induction xs with
  | nil => rfl
  | cons x rest ih => simp [List.replicate, ih]

theorem derivStage_zero (ext : Extern) (d : ℚ) (xs : List ℚ) :
    derivStage ext d 0 xs = xs := rfl

theorem derivStage_nonneg (ext : Extern) (d : ℚ) (xs : List ℚ) (n : ℤ)
    (h : 0 ≤ n) :
    derivStage ext d n xs = Nat.iterate (ext.gradient d) n.toNat xs := by
  unfold derivStage
  have h2 : (-n).toNat = 0 := by omega
  rw [h2, Function.iterate_zero_apply]

theorem derivStage_neg (ext : Extern) (d : ℚ) (xs : List ℚ) (n : ℤ)
    (h : n < 0) :
    derivStage ext d n xs = Nat.iterate (ext.cumtrapz d) (-n).toNat xs := by
  unfold derivStage
  have h2 : n.toNat = 0 := by omega
  rw [h2, Function.iterate_zero_apply]

theorem tracesFor_spec (series : List (Comp × List ℚ)) (g : Comp → List ℚ) :
    ∀ comps : List Comp, (∀ c ∈ comps, getKey series c = some (g c)) →
    tracesFor series comps = .ok (comps.map (fun c => (c, g c))) := by
  intro comps
  induction comps with
  | nil => intro _; rfl
  | cons c rest ih =>
    intro h
    have hc := h c (by simp)
    rw [tracesFor, hc, ih (fun x hx => h x (by simp [hx]))]
    simp

/-- With a deconvolvable stored-STF order the reconvolution branch can never
raise the NotImplementedError (its other exits are the missing-STF check, the
tolerance check, a KeyError, or success). -/
theorem compBody_no_deconv (ext : Extern) (info : Info) (source : Source)
    (sOrd nDer : ℤ) (remove : Bool) (dt : Option ℚ) (dt_out : ℚ) (a : ℕ)
    (s? : Option (List ℚ)) (hs : sOrd = 0 ∨ sOrd = 1) :
    compBody ext info source sOrd nDer remove true dt dt_out a s?
      ≠ .error .deconvNotImplemented := by
  have hs2 : ¬ ¬ (sOrd = 0 ∨ sOrd = 1) := not_not_intro hs
  cases h1 : source.dt with
  | none => simp [compBody, h1]
  | some sdt =>
    cases h2 : source.sliprate with
    | none => simp [compBody, h1, h2]
    | some sr =>
      cases s? with
      | none =>
        simp only [compBody, h1, h2, if_true]
        rw [if_neg hs2]
        split_ifs <;>
          (first | decide | (exact fun h => Except.noConfusion h) | simp)
      | some xs =>
        cases dt with
        | none =>
          cases remove <;>
            (simp only [compBody, h1, h2, if_true]
             rw [if_neg hs2]
             split_ifs <;>
               (first | decide | (exact fun h => Except.noConfusion h) | simp))
        | some dtv =>
          cases remove <;>
            (simp only [compBody, h1, h2, if_true]
             rw [if_neg hs2]
             split_ifs <;>
               (first | decide | (exact fun h => Except.noConfusion h) | simp))

theorem compLoop_no_deconv (ext : Extern) (info : Info) (source : Source)
    (sOrd nDer : ℤ) (remove : Bool) (dt : Option ℚ) (dt_out : ℚ) (a : ℕ)
    (hs : sOrd = 0 ∨ sOrd = 1) :
    ∀ (comps : List Comp) (st : List (Comp × List ℚ) × Option ℚ),
    compLoop ext info source sOrd nDer remove true dt dt_out a comps st
      ≠ .error .deconvNotImplemented := by
  intro comps
  induction comps with
  | nil => intro st; simp [compLoop]
  | cons c rest ih =>
    intro st
    obtain ⟨ds, ts⟩ := st
    rw [compLoop]
    cases hb : compBody ext info source sOrd nDer remove true dt dt_out a
        (getKey ds c) with
    | error e =>
      have hnd := compBody_no_deconv ext info source sOrd nDer remove dt
        dt_out a (getKey ds c) hs
      rw [hb] at hnd
      simpa using hnd
    | ok v => simp [ih]

/-- Trace assembly only ever fails with a KeyError. -/
theorem tracesFor_err (series : List (Comp × List ℚ)) :
    ∀ (comps : List Comp) (e : Err), tracesFor series comps = .error e →
      e = .keyError := by
  intro comps
  induction comps with
  | nil =>
    intro e h
    exact absurd h (by simp [tracesFor])
  | cons c rest ih =>
    intro e h
    rw [tracesFor] at h
    cases hg : getKey series c with
    | none =>
      rw [hg] at h
      injection h with h2
      exact h2.symm
    | some xs =>
      rw [hg] at h
      cases ht : tracesFor series rest with
      | error e2 =>
        rw [ht] at h
        injection h with h2
        rw [← h2]
        exact ih e2 ht
      | ok ts =>
        rw [ht] at h
        exact absurd h (by simp)

/-- A successful sanity check implies the kind is one of the three valid
kinds. -/
theorem kind_mem_of_sanity (info : Info) (components : List Comp)
    (kind : String) (h : sanityChecks info components kind = .ok ()) :
    kind ∈ (["displacement", "velocity", "acceleration"] : List String) := by
  by_contra hk
  unfold sanityChecks at h
  rw [if_pos hk] at h
  exact absurd h (by simp)

/-- A valid kind always has an entry in kind_map. -/
theorem kind_lookup_of_sanity (info : Info) (components : List Comp)
    (kind : String) (h : sanityChecks info components kind = .ok ()) :
    ∃ k, getKey kind_map kind = some k := by
  have hmem := kind_mem_of_sanity info components kind h
  simp only [List.mem_cons, List.not_mem_nil, or_false] at hmem
  rcases hmem with rfl | rfl | rfl
  · exact ⟨0, rfl⟩
  · exact ⟨1, rfl⟩
  · exact ⟨2, rfl⟩

/-- C1: the final resampling pass of get_seismograms_finite_source feeds the
resampler the last point source contribution (data[comp] of the leaked loop
variable), not the accumulated sum: with two sources whose raw contributions
are [1,1] and [2,2] and identity external kernels, the dt-resampled output is
[2,2], while the accumulated sum that the same call returns when no dt is
requested is [3,3]. -/
theorem c1_finite_resample_input_is_last_source :
    getSeismogramsFiniteSource extId db0 [src0, src1] rec0 ["Z"]
      "displacement" (some 1) 5 false none
      = .ok (some ⟨[("Z", [2, 2])], 1⟩) ∧
    getSeismogramsFiniteSource extId db0 [src0, src1] rec0 ["Z"]
      "displacement" none 5 false none
      = .ok (some ⟨[("Z", [3, 3])], 1⟩) := by
  have hm : SrcKind.moment ≠ SrcKind.force := by decide
  constructor <;>
    norm_num [getSeismogramsFiniteSource, finiteLoop, finiteResample, sumStep,
      tracesFor, getSeismogramsCore, sanityChecks, compLoop, compBody,
      resampleStage, derivStage, corrFac, npAdd, cmul, getKey, setKey,
      kind_map, stf_map, pyRound, pyInt, pyMod, roundHalfEven, pySliceFrom,
      tol, DEFAULT_MU, extId, db0, info0, src0, src1, rec0, hm]

/-- C6 counterexample: with database source shift 1/3 and new dt 1, the new
start time handed to the resampling kernel is round(1/3 mod 1, 8) =
33333333/100000000, not the exact (1/3 mod 1) the claim states, and the
remaining time shift is 1/300000000 rather than src_shift minus the exact
mod. -/
theorem c6_counterexample :
    (resampleStage extProbe info6 1 5 [0, 0]).1 ≠ [pyMod info6.src_shift 1] ∧
    (resampleStage extProbe info6 1 5 [0, 0]).2
      ≠ info6.src_shift - pyMod info6.src_shift 1 := by
  constructor <;>
    norm_num [resampleStage, extProbe, info6, pyRound, pyMod, roundHalfEven,
      pyInt]

/-- C6 (amended): with a requested dt the per-component body computes the
alignment shift as (src_shift mod new dt) rounded half-even to 8 decimal
places, the output sample count as int(round(duration / dt, 6)) + 1 where
duration = (len - 1) * database dt - shift, invokes the resampling kernel
with that rounded shift as the new start time, and the remaining time shift
is src_shift minus that rounded shift. -/
theorem c6_resample_step (ext : Extern) (info : Info) (source : Source)
    (sOrd nDer : ℤ) (dt_out : ℚ) (a : ℕ) (xs : List ℚ) (dtv : ℚ) :
    compBody ext info source sOrd nDer false false (some dtv) dt_out a
      (some xs)
      = .ok (some (derivStage ext dt_out nDer (ext.lanczos xs 0 info.dt
          (pyRound (pyMod info.src_shift dtv) 8) dtv
          (pyInt (pyRound ((((xs.length : ℚ) - 1) * info.dt
            - pyRound (pyMod info.src_shift dtv) 8) / dtv) 6) + 1) a)),
        info.src_shift - pyRound (pyMod info.src_shift dtv) 8) := by
  by_cases h : nDer = 0
  · subst h
    simp [compBody, resampleStage, derivStage_zero]
  · simp [compBody, resampleStage, h]

/-- C9 counterexample: at the invalid order n = 0 (violating n ≥ 1) every
spectral-basis wrapper proceeds straight to the foreign kernel and succeeds;
none rejects the order before computation. -/
theorem c9_counterexample :
    zelegl lib0 0 = .ok [0] ∧ zemngl2 lib0 0 = .ok [0] ∧
    def_lagrange_derivs_gll lib0 0 = .ok [[0]] ∧
    def_lagrange_derivs_glj lib0 0 = .ok ([0], [[0]]) :=
  ⟨rfl, rfl, rfl, rfl⟩

/-- C9 (amended): the wrappers perform no order validation at all: for every
order n ≥ -1 (including the invalid orders -1 and 0) each operation allocates
a zero buffer of length n + 1, calls the compiled kernel and succeeds; only
n ≤ -2 fails, and then with numpy's negative-dimension allocation error, not
an order check. -/
theorem c9_no_order_validation (lib : SpectralLib) (n : ℤ) :
    (-1 ≤ n →
      zelegl lib n = .ok (lib.zelegl_f n (List.replicate (n + 1).toNat 0)) ∧
      zemngl2 lib n = .ok (lib.zemngl2_f n (List.replicate (n + 1).toNat 0)) ∧
      def_lagrange_derivs_gll lib n = .ok (lib.dlg_gll n
        (List.replicate (n + 1).toNat (List.replicate (n + 1).toNat 0))) ∧
      def_lagrange_derivs_glj lib n = .ok (lib.dlg_glj n
        (List.replicate (n + 1).toNat (List.replicate (n + 1).toNat 0))
        (List.replicate (n + 1).toNat 0))) ∧
    (n < -1 →
      zelegl lib n = .error .negativeDimension ∧
      zemngl2 lib n = .error .negativeDimension ∧
      def_lagrange_derivs_gll lib n = .error .negativeDimension ∧
      def_lagrange_derivs_glj lib n = .error .negativeDimension) := by
  constructor
  · intro h
    have h1 : ¬ (n + 1 < 0) := by omega
    refine ⟨?_, ?_, ?_, ?_⟩ <;>
      simp [zelegl, zemngl2, def_lagrange_derivs_gll, def_lagrange_derivs_glj,
        npZeros1, npZeros2, h1]
  · intro h
    have h1 : n + 1 < 0 := by omega
    refine ⟨?_, ?_, ?_, ?_⟩ <;>
      simp [zelegl, zemngl2, def_lagrange_derivs_gll, def_lagrange_derivs_glj,
        npZeros1, npZeros2, h1]

theorem c9_no_order_validation_witness :
    zelegl lib0 0 = .ok [0] ∧ zelegl lib0 (-2) = .error .negativeDimension :=
  ⟨((c9_no_order_validation lib0 0).1 (by decide)).1,
   ((c9_no_order_validation lib0 (-2)).2 (by decide)).1⟩

/-- C10 counterexample: with an empty components tuple, reconvolve_stf=true
and remove_source_shift=false, the call under the default obspy-stream return
does not complete: the component loop never assigns the time_shift local, and
reading it for _convert_to_stream is an unbound-local error. -/
theorem c10_counterexample :
    (getSeismograms extId db0 src0 rec0 [] "displacement" false true true
      none 5).result = .error .unboundLocal :=
  rfl

/-- C3 counterexample: with reconvolve_stf and remove_source_shift both true
the ValidationError is indeed raised, but only after the seismogram data has
been extracted: the _get_seismograms call at line 82 precedes the
compatibility check at line 114. -/
theorem c3_counterexample :
    (getSeismograms extId db0 src0 rec0 ["Z"] "displacement" true true true
      none 5).result = .error .reconvolveWithRemoveShift ∧
    (getSeismograms extId db0 src0 rec0 ["Z"] "displacement" true true true
      none 5).extracted = true :=
  ⟨rfl, rfl⟩

/-- C5 counterexample: against a database whose stored STF tag gauss_1 maps
to order 2 (outside the deconvolvable orders 0 and 1), a source lacking its
sampling interval makes the reconvolving call raise the
missing-source-time-function ValueError, not the NotImplementedError that the
unqualified if-and-only-if would require. -/
theorem c5_counterexample :
    (getSeismograms extId db5 src5 rec0 ["Z"] "displacement" false true false
      none 5).result = .error .noSourceTimeFunction ∧
    getKey stf_map "gauss_1" = some 2 ∧ ¬ ((2 : ℤ) = 0 ∨ (2 : ℤ) = 1) :=
  ⟨rfl, rfl, by decide⟩

/-- The sanity checks fail only with their own four error kinds. -/
theorem sanity_err (info : Info) (comps : List Comp) (kind : String)
    (e : Err) (h : sanityChecks info comps kind = .error e) :
    e = .unknownKind ∨ e = .invalidComponent ∨ e = .verticalOnlyDB ∨
      e = .horizontalOnlyDB := by
  unfold sanityChecks at h
  split_ifs at h <;>
    first
      | (injection h with h2; rw [← h2]; simp)
      | exact absurd h (by simp)


/-- With a deconvolvable stored-STF order, no call of get_seismograms with
reconvolve_stf can raise the NotImplementedError. -/
theorem getSeismograms_no_deconv (ext : Extern) (db : Db) (source : Source)
    (receiver : Receiver) (comps : List Comp) (kind : String)
    (remove stream : Bool) (dt : Option ℚ) (a : ℕ) (sOrd : ℤ)
    (hstf : getKey stf_map db.info.stf = some sOrd)
    (hs : sOrd = 0 ∨ sOrd = 1) :
    (getSeismograms ext db source receiver comps kind remove true stream dt
      a).result ≠ .error .deconvNotImplemented := by
  unfold getSeismograms getSeismogramsCore
  cases hsan : sanityChecks db.info comps kind with
  | error e =>
    rcases sanity_err db.info comps kind e hsan with rfl | rfl | rfl | rfl <;>
      simp
  | ok u =>
    obtain ⟨⟩ := u
    cases hk : getKey kind_map kind with
    | none => simp [hstf]
    | some k =>
      simp only [hk, hstf]
      by_cases hr : remove
      · subst hr; simp
      · have hr2 : remove = false := by simp [hr]
        subst hr2
        cases hloop : compLoop ext db.info source sOrd
            (if source.kind = SrcKind.force then k - sOrd + 2 else k - sOrd)
            false true dt (dt.getD db.info.dt) a comps
            ((db.extract source receiver comps).series, none) with
        | error e =>
          have hne := compLoop_no_deconv ext db.info source sOrd
            (if source.kind = SrcKind.force then k - sOrd + 2 else k - sOrd)
            false dt (dt.getD db.info.dt) a hs comps
            ((db.extract source receiver comps).series, none)
          rw [hloop] at hne
          simp only [hloop]
          simpa using hne
        | ok st =>
          simp only [hloop]
          cases stream with
          | false => simp
          | true =>
            cases hts : st.2 with
            | none => simp [hts]
            | some ts =>
              simp only [hts]
              cases hconv : convertToStream source comps
                  ⟨st.1, (db.extract source receiver comps).mu⟩
                  (dt.getD db.info.dt) ts with
              | error e =>
                have htrerr : tracesFor
                    (⟨st.1, (db.extract source receiver comps).mu⟩ :
                      RawData).series comps = .error e := by
                  unfold convertToStream at hconv
                  cases htr : tracesFor
                      (⟨st.1, (db.extract source receiver comps).mu⟩ :
                        RawData).series comps with
                  | error e2 =>
                    rw [htr] at hconv
                    simp only [Except.error.injEq] at hconv
                    rw [hconv]
                  | ok ts2 =>
                    rw [htr] at hconv
                    simp at hconv
                have hke := tracesFor_err
                  (⟨st.1, (db.extract source receiver comps).mu⟩ :
                    RawData).series comps e htrerr
                simp [hconv, hke]
              | ok st2 => simp [hconv]


/-- C3 (amended): for every source, receiver and valid component/kind
arguments against a database with a known stored STF tag, requesting both
reconvolve_stf and remove_source_shift raises the mutual-exclusion
ValidationError — but only after the seismogram data has been extracted: the
_get_seismograms call precedes the check, so the rejection is not prior to
data extraction as the claim states. -/
theorem c3_rejection_after_extraction (ext : Extern) (db : Db)
    (source : Source) (receiver : Receiver) (components : List Comp)
    (kind : String) (stream : Bool) (dt : Option ℚ) (a : ℕ) (sOrd : ℤ)
    (hsan : sanityChecks db.info components kind = .ok ())
    (hstf : getKey stf_map db.info.stf = some sOrd) :
    (getSeismograms ext db source receiver components kind true true stream
      dt a).result = .error .reconvolveWithRemoveShift ∧
    (getSeismograms ext db source receiver components kind true true stream
      dt a).extracted = true := by
  obtain ⟨k, hk⟩ := kind_lookup_of_sanity db.info components kind hsan
  unfold getSeismograms getSeismogramsCore
  rw [hsan]
  simp [hk, hstf]

theorem c3_rejection_after_extraction_witness :
    (getSeismograms extId db0 src0 rec0 ["Z"] "displacement" true true false
      none 5).result = .error .reconvolveWithRemoveShift ∧
    (getSeismograms extId db0 src0 rec0 ["Z"] "displacement" true true false
      none 5).extracted = true :=
  c3_rejection_after_extraction extId db0 src0 rec0 ["Z"] "displacement"
    false none 5 0 rfl rfl

/-- C4: the number of successive differentiations (n positive) or
zero-initialized cumulative-trapezoid integrations (n negative) applied to
every component is n = kind order minus stored-STF order — with displacement,
velocity, acceleration mapping to 0, 1, 2 and errorf, quheavi to 0; dirac_0,
gauss_0 to 1; gauss_1 to 2; gauss_2 to 3 — and 2 is added exactly when the
source is a force source. -/
theorem c4_derivative_order (source : Source) (ext : Extern) (d : ℚ)
    (xs : List ℚ) (kind stf : String) (k s : ℤ)
    (hk : kind = "displacement" ∧ k = 0 ∨ kind = "velocity" ∧ k = 1 ∨
      kind = "acceleration" ∧ k = 2)
    (hs : stf = "errorf" ∧ s = 0 ∨ stf = "quheavi" ∧ s = 0 ∨
      stf = "dirac_0" ∧ s = 1 ∨ stf = "gauss_0" ∧ s = 1 ∨
      stf = "gauss_1" ∧ s = 2 ∨ stf = "gauss_2" ∧ s = 3) :
    nDerivative kind stf source
      = some (k - s + (if source.kind = SrcKind.force then 2 else 0)) ∧
    (∀ n : ℤ, 0 ≤ n →
      derivStage ext d n xs = Nat.iterate (ext.gradient d) n.toNat xs) ∧
    (∀ n : ℤ, n < 0 →
      derivStage ext d n xs = Nat.iterate (ext.cumtrapz d) (-n).toNat xs) := by
  refine ⟨?_, fun n hn => derivStage_nonneg ext d xs n hn,
    fun n hn => derivStage_neg ext d xs n hn⟩
  rcases hk with ⟨rfl, rfl⟩ | ⟨rfl, rfl⟩ | ⟨rfl, rfl⟩ <;>
    rcases hs with ⟨rfl, rfl⟩ | ⟨rfl, rfl⟩ | ⟨rfl, rfl⟩ | ⟨rfl, rfl⟩ |
      ⟨rfl, rfl⟩ | ⟨rfl, rfl⟩ <;>
    cases hf : source.kind <;>
    simp [nDerivative, getKey, kind_map, stf_map, hf]


theorem c4_derivative_order_witness :
    nDerivative "velocity" "gauss_1" ⟨SrcKind.force, none, none, none, none⟩
      = some 1 := by
  have h := (c4_derivative_order ⟨SrcKind.force, none, none, none, none⟩
    extId 1 [] "velocity" "gauss_1" 1 2 (by simp) (by simp)).1
  rw [h]
  decide

/-- C5 (amended): with reconvolve_stf=true and at least one requested
component, provided the source carries its own sampling interval and sliprate
(those are checked first — a source lacking either raises the
missing-source-time-function ValueError instead), the call raises
NotImplementedError exactly when the stored STF tag's order lies outside
{0, 1}; and when the order is deconvolvable but the source sampling interval
differs relatively from the database's by more than 1e-7, the
incompatible-dt ValueError is raised. -/
theorem c5_deconvolvable_orders (ext : Extern) (db : Db) (source : Source)
    (receiver : Receiver) (c : Comp) (cs : List Comp) (kind : String)
    (stream : Bool) (dt : Option ℚ) (a : ℕ) (sOrd : ℤ) (sdt : ℚ)
    (sr : List ℚ)
    (hsan : sanityChecks db.info (c :: cs) kind = .ok ())
    (hstf : getKey stf_map db.info.stf = some sOrd)
    (hdt : source.dt = some sdt) (hsr : source.sliprate = some sr) :
    ((getSeismograms ext db source receiver (c :: cs) kind false true stream
        dt a).result = .error .deconvNotImplemented
      ↔ ¬ (sOrd = 0 ∨ sOrd = 1)) ∧
    ((sOrd = 0 ∨ sOrd = 1) → |(sdt - db.info.dt) / db.info.dt| > tol →
      (getSeismograms ext db source receiver (c :: cs) kind false true stream
        dt a).result = .error .sourceDtIncompatible) := by
  obtain ⟨k, hk⟩ := kind_lookup_of_sanity db.info (c :: cs) kind hsan
  constructor
  · constructor
    · intro hres
      by_contra hok
      exact getSeismograms_no_deconv ext db source receiver (c :: cs) kind
        false stream dt a sOrd hstf hok hres
    · intro hneg
      unfold getSeismograms getSeismogramsCore
      rw [hsan]
      simp [hk, hstf, compLoop, compBody, hdt, hsr, hneg]
  · intro hok htol
    unfold getSeismograms getSeismogramsCore
    rw [hsan]
    have hok2 : ¬ ¬ (sOrd = 0 ∨ sOrd = 1) := not_not_intro hok
    simp [hk, hstf, compLoop, compBody, hdt, hsr, hok2, htol]


theorem c5_deconvolvable_orders_witness :
    (getSeismograms extId db5 src0 rec0 ["Z"] "displacement" false true false
      none 5).result = .error .deconvNotImplemented :=
  ((c5_deconvolvable_orders extId db5 src0 rec0 "Z" [] "displacement" false
    none 5 2 1 [1] rfl rfl rfl rfl).1).mpr (by decide)

/-- C7: with remove_source_shift=true the leading samples corresponding to
the remaining source shift are dropped — src_shift_samples of them when no
resampling happened, int(remaining shift / new dt) of them otherwise — and
the remaining time shift becomes zero afterwards; with reconvolve_stf=true
instead, every successful per-component outcome also carries a zero remaining
shift; and the assembled stream starts at the origin time minus the remaining
time shift. -/
theorem c7_shift_removal (ext : Extern) (info : Info) (source : Source)
    (sOrd nDer : ℤ) (dt_out : ℚ) (a : ℕ) (xs : List ℚ) (dtv : ℚ)
    (components : List Comp) (rd : RawData) (ts : ℚ) :
    (compBody ext info source sOrd nDer true false none dt_out a (some xs)
      = .ok (some ((derivStage ext dt_out nDer xs).drop
          info.src_shift_samples), 0)) ∧
    (compBody ext info source sOrd nDer true false (some dtv) dt_out a
        (some xs)
      = .ok (some (pySliceFrom
          (pyInt ((resampleStage ext info dtv a xs).2 / dtv))
          (derivStage ext dt_out nDer (resampleStage ext info dtv a xs).1)),
        0)) ∧
    (∀ (dt2 : Option ℚ) (s? : Option (List ℚ)) out,
      compBody ext info source sOrd nDer false true dt2 dt_out a s? = .ok out
        → out.2 = 0) ∧
    (∀ st, convertToStream source components rd dt_out ts = .ok st →
      st.starttime = source.origin_time.getD 0 - ts) := by
  refine ⟨?_, ?_, ?_, ?_⟩
  · by_cases h : nDer = 0
    · subst h
      simp [compBody, derivStage_zero]
    · simp [compBody, h]
  · by_cases h : nDer = 0
    · subst h
      simp [compBody, derivStage_zero]
    · simp [compBody, h]
  · intro dt2 s? out hout
    cases h1 : source.dt with
    | none => rw [compBody, h1] at hout; simp at hout
    | some sdt =>
      cases h2 : source.sliprate with
      | none => rw [compBody, h1] at hout; simp [h2] at hout
      | some sr =>
        rw [compBody, h1] at hout
        simp only [h2, if_true] at hout
        split_ifs at hout <;>
          first
            | contradiction
            | ((repeat' split at hout) <;>
                (first
                  | contradiction
                  | (injection hout with hout2; rw [← hout2])
                  | simp at hout))
  · intro st hconv
    unfold convertToStream at hconv
    cases htr : tracesFor rd.series components with
    | error e => rw [htr] at hconv; simp at hconv
    | ok trs =>
      rw [htr] at hconv
      injection hconv with h2
      rw [← h2]


theorem c7_shift_removal_witness :
    compBody extId info0 src0 0 0 true false none 1 5 (some [1, 2])
      = .ok (some [1, 2], 0) ∧
    (⟨[("Z", [1])], 1, src0.origin_time.getD 0 - 3⟩ : SeisStream).starttime
      = src0.origin_time.getD 0 - 3 :=
  ⟨(c7_shift_removal extId info0 src0 0 0 1 5 [1, 2] 1 ["Z"]
      ⟨[("Z", [1])], 1⟩ 3).1,
    (c7_shift_removal extId info0 src0 0 0 1 5 [1, 2] 1 ["Z"]
      ⟨[("Z", [1])], 1⟩ 3).2.2.2
      ⟨[("Z", [1])], 1, src0.origin_time.getD 0 - 3⟩ rfl⟩

/-- C10 (amended): with an empty components tuple and reconvolve_stf=true,
none of the reconvolution validation errors can be raised (their checks live
inside the skipped per-component loop) and the mutual-exclusion check outside
the loop is still enforced; but the call only completes under the
raw-dictionary return — under the default obspy-stream return it fails with
an unbound-local error on the never-assigned time_shift variable. -/
theorem c10_empty_components (ext : Extern) (db : Db) (source : Source)
    (receiver : Receiver) (kind : String) (dt : Option ℚ) (a : ℕ) (sOrd : ℤ)
    (hsan : sanityChecks db.info [] kind = .ok ())
    (hstf : getKey stf_map db.info.stf = some sOrd) :
    ((getSeismograms ext db source receiver [] kind true true true dt
        a).result = .error .reconvolveWithRemoveShift) ∧
    ((getSeismograms ext db source receiver [] kind false true false dt
        a).result = .ok (.raw (db.extract source receiver []))) ∧
    ((getSeismograms ext db source receiver [] kind false true true dt
        a).result = .error .unboundLocal) ∧
    (∀ remove stream : Bool,
      (getSeismograms ext db source receiver [] kind remove true stream dt
          a).result ≠ .error .noSourceTimeFunction ∧
      (getSeismograms ext db source receiver [] kind remove true stream dt
          a).result ≠ .error .deconvNotImplemented ∧
      (getSeismograms ext db source receiver [] kind remove true stream dt
          a).result ≠ .error .sourceDtIncompatible) := by
  obtain ⟨k, hk⟩ := kind_lookup_of_sanity db.info [] kind hsan
  refine ⟨?_, ?_, ?_, ?_⟩
  · unfold getSeismograms getSeismogramsCore
    rw [hsan]
    simp [hk, hstf]
  · unfold getSeismograms getSeismogramsCore
    rw [hsan]
    simp [hk, hstf, compLoop]
  · unfold getSeismograms getSeismogramsCore
    rw [hsan]
    simp [hk, hstf, compLoop]
  · intro remove stream
    cases remove <;> cases stream <;>
      (refine ⟨?_, ?_, ?_⟩ <;>
        (unfold getSeismograms getSeismogramsCore
         rw [hsan]
         simp [hk, hstf, compLoop]))


theorem c10_empty_components_witness :
    (getSeismograms extId db0 src0 rec0 [] "displacement" false true false
      none 5).result = .ok (.raw (db0.extract src0 rec0 [])) :=
  (c10_empty_components extId db0 src0 rec0 "displacement" none 5 0 rfl
    rfl).2.1

/-- One pass of the finite-source accumulation over the components: every
requested component ends up holding its previous sum plus the scaled
contribution (the first source initializes the entry), and nothing else is
touched. -/
theorem sumStep_spec (rd : RawData) (corr : ℚ) (σ : Comp → List ℚ)
    (L : Comp → ℕ) :
    ∀ (comps : List Comp) (ds : List (Comp × List ℚ)),
    comps.Nodup →
    (∀ c ∈ comps, getKey rd.series c = some (σ c)) →
    (∀ c ∈ comps, (σ c).length = L c) →
    (∀ c ∈ comps, ∀ p, getKey ds c = some p → p.length = L c) →
    ∃ ds1, sumStep rd corr comps ds = .ok ds1 ∧
      (∀ c ∈ comps, getKey ds1 c =
        some (match getKey ds c with
          | some p => List.zipWith (fun x y => x + y) p (cmul corr (σ c))
          | none => cmul corr (σ c))) ∧
      (∀ c2, c2 ∉ comps → getKey ds1 c2 = getKey ds c2) := by
  intro comps
  induction comps with
  | nil =>
    intro ds _ _ _ _
    exact ⟨ds, rfl, by simp, fun c2 _ => rfl⟩
  | cons c rest ih =>
    intro ds hnd hσ hL hds
    have hndr : rest.Nodup := (List.nodup_cons.mp hnd).2
    have hcr : c ∉ rest := (List.nodup_cons.mp hnd).1
    have hgc : getKey rd.series c = some (σ c) := hσ c (by simp)
    cases hdc : getKey ds c with
    | some p =>
      have hp : p.length = L c := hds c (by simp) p hdc
      have hlen : p.length = (cmul corr (σ c)).length := by
        rw [cmul_length, hL c (by simp), hp]
      have hadd := npAdd_ok p (cmul corr (σ c)) hlen
      have hvlen : (List.zipWith (fun x y => x + y) p
          (cmul corr (σ c))).length = L c := by
        rw [zipWith_add_length p _ hlen, hp]
      obtain ⟨ds1, hrun, hmem, hframe⟩ := ih
        (setKey ds c (List.zipWith (fun x y => x + y) p (cmul corr (σ c))))
        hndr
        (fun c2 h2 => hσ c2 (by simp [h2]))
        (fun c2 h2 => hL c2 (by simp [h2]))
        (fun c2 h2 q hq => by
          rw [getKey_setKey_ne ds c c2 _ (fun he => hcr (he ▸ h2))] at hq
          exact hds c2 (by simp [h2]) q hq)
      refine ⟨ds1, ?_, ?_, ?_⟩
      · simp only [sumStep, hgc, hdc, hadd]
        exact hrun
      · intro c2 h2
        rcases List.mem_cons.mp h2 with rfl | h2
        · rw [hframe c2 hcr, getKey_setKey_self, hdc]
        · rw [hmem c2 h2,
            getKey_setKey_ne ds c c2 _ (fun he => hcr (he ▸ h2))]
      · intro c2 h2
        have h2c : c ≠ c2 := fun he => h2 (by simp [he])
        have h2r : c2 ∉ rest := fun hr => h2 (by simp [hr])
        rw [hframe c2 h2r, getKey_setKey_ne ds c c2 _ h2c]
    | none =>
      have hvlen : (cmul corr (σ c)).length = L c := by
        rw [cmul_length, hL c (by simp)]
      obtain ⟨ds1, hrun, hmem, hframe⟩ := ih
        (setKey ds c (cmul corr (σ c)))
        hndr
        (fun c2 h2 => hσ c2 (by simp [h2]))
        (fun c2 h2 => hL c2 (by simp [h2]))
        (fun c2 h2 q hq => by
          rw [getKey_setKey_ne ds c c2 _ (fun he => hcr (he ▸ h2))] at hq
          exact hds c2 (by simp [h2]) q hq)
      refine ⟨ds1, ?_, ?_, ?_⟩
      · simp only [sumStep, hgc, hdc]
        exact hrun
      · intro c2 h2
        rcases List.mem_cons.mp h2 with rfl | h2
        · rw [hframe c2 hcr, getKey_setKey_self, hdc]
        · rw [hmem c2 h2,
            getKey_setKey_ne ds c c2 _ (fun he => hcr (he ▸ h2))]
      · intro c2 h2
        have h2c : c ≠ c2 := fun he => h2 (by simp [he])
        have h2r : c2 ∉ rest := fun hr => h2 (by simp [hr])
        rw [hframe c2 h2r, getKey_setKey_ne ds c c2 _ h2c]


/-- The source loop of get_seismograms_finite_source accumulates, for every
requested component, the fold of the scaled per-source contributions. -/
theorem finiteLoop_spec (ext : Extern) (db : Db) (receiver : Receiver)
    (comps : List Comp) (correct_mu : Bool) (count : ℕ)
    (f : Source → RawData) (t : Source → Option ℚ)
    (σ : Comp → Source → List ℚ) (L : Comp → ℕ)
    (hnd : comps.Nodup) :
    ∀ (srcs : List Source) (i : ℕ) (ds : List (Comp × List ℚ))
      (last : Option RawData),
    (∀ s ∈ srcs, (getSeismogramsCore ext db s receiver comps "displacement"
      false true none 5).2 = .ok (f s, t s)) →
    (∀ s ∈ srcs, ∀ c ∈ comps, getKey (f s).series c = some (σ c s)) →
    (∀ s ∈ srcs, ∀ c ∈ comps, (σ c s).length = L c) →
    (∀ c ∈ comps, ∀ p, getKey ds c = some p → p.length = L c) →
    ∃ ds1 last1,
      finiteLoop ext db receiver comps correct_mu none count srcs i ds last
        = .ok (some (ds1, last1)) ∧
      (∀ c ∈ comps, getKey ds1 c =
        srcs.foldl (fun acc s =>
          some (match acc with
            | some p => List.zipWith (fun x y => x + y) p
                (cmul (corrFac correct_mu (f s)) (σ c s))
            | none => cmul (corrFac correct_mu (f s)) (σ c s)))
          (getKey ds c)) ∧
      (∀ c2, c2 ∉ comps → getKey ds1 c2 = getKey ds c2) := by
  intro srcs
  induction srcs with
  | nil =>
    intro i ds last _ _ _ _
    exact ⟨ds, last, rfl, fun c _ => rfl, fun c2 _ => rfl⟩
  | cons s rest ih =>
    intro i ds last hcore hσ hL hds
    have hcs := hcore s (by simp)
    obtain ⟨ds1, hsum, hmem, hframe⟩ := sumStep_spec (f s)
      (corrFac correct_mu (f s)) (fun c => σ c s) L comps ds hnd
      (fun c hc => hσ s (by simp) c hc)
      (fun c hc => hL s (by simp) c hc)
      hds
    have hds1 : ∀ c ∈ comps, ∀ p, getKey ds1 c = some p → p.length = L c := by
      intro c hc p hp
      rw [hmem c hc] at hp
      injection hp with hp2
      cases hdc : getKey ds c with
      | some q =>
        rw [hdc] at hp2
        have hq : q.length = L c := hds c hc q hdc
        have hlen2 : q.length = (cmul (corrFac correct_mu (f s))
            (σ c s)).length := by
          rw [cmul_length, hL s (by simp) c hc, hq]
        rw [← hp2, zipWith_add_length q _ hlen2, hq]
      | none =>
        rw [hdc] at hp2
        rw [← hp2, cmul_length, hL s (by simp) c hc]
    obtain ⟨ds2, last2, hrun, hmem2, hframe2⟩ := ih (i + 1) ds1 (some (f s))
      (fun s2 h2 => hcore s2 (by simp [h2]))
      (fun s2 h2 => hσ s2 (by simp [h2]))
      (fun s2 h2 => hL s2 (by simp [h2]))
      hds1
    refine ⟨ds2, last2, ?_, ?_, ?_⟩
    · simp only [finiteLoop, hcs, hsum]
      exact hrun
    · intro c hc
      rw [List.foldl_cons, hmem2 c hc, hmem c hc]
    · intro c2 h2
      rw [hframe2 c2 h2, hframe c2 h2]


/-- The option-valued accumulation fold agrees with the plain componentwise
fold once the accumulator is initialized. -/
theorem optFold_eq (contrib : Source → List ℚ) :
    ∀ (srcs : List Source) (p : List ℚ),
    (∀ s ∈ srcs, (contrib s).length = p.length) →
    List.foldl (fun acc s =>
        some (match acc with
          | some q => List.zipWith (fun x y => x + y) q (contrib s)
          | none => contrib s)) (some p) srcs
      = some (List.foldl (fun acc s =>
          List.zipWith (fun x y => x + y) acc (contrib s)) p srcs) := by
  intro srcs
  induction srcs with
  | nil =>
    intro p _
    rfl
  | cons s rest ih =>
    intro p hlen
    rw [List.foldl_cons, List.foldl_cons]
    have hz : (List.zipWith (fun x y => x + y) p (contrib s)).length
        = p.length :=
      zipWith_add_length p (contrib s) (hlen s (by simp)).symm
    exact ih (List.zipWith (fun x y => x + y) p (contrib s))
      (fun s2 h2 => by rw [hz]; exact hlen s2 (by simp [h2]))


/-- C2: in get_seismograms_finite_source, every point source contribution is
accumulated componentwise after scaling by corrFac — the local shear modulus
over DEFAULT_MU when correct_mu is set, the factor 1 otherwise: the summed
output equals the componentwise fold of the scaled contributions. -/
theorem c2_mu_scaling (ext : Extern) (db : Db) (receiver : Receiver)
    (comps : List Comp) (kind2 : String) (a : ℕ) (correct_mu : Bool)
    (sources : List Source)
    (f : Source → RawData) (t : Source → Option ℚ)
    (σ : Comp → Source → List ℚ) (L : Comp → ℕ)
    (hrec : db.info.is_reciprocal = true)
    (hnd : comps.Nodup)
    (hne : sources ≠ [])
    (hcore : ∀ s ∈ sources, (getSeismogramsCore ext db s receiver comps
      "displacement" false true none 5).2 = .ok (f s, t s))
    (hσ : ∀ s ∈ sources, ∀ c ∈ comps, getKey (f s).series c = some (σ c s))
    (hL : ∀ s ∈ sources, ∀ c ∈ comps, (σ c s).length = L c) :
    getSeismogramsFiniteSource ext db sources receiver comps kind2 none a
      correct_mu none
      = .ok (some ⟨comps.map (fun c => (c,
          sources.foldl (fun acc s => List.zipWith (fun x y => x + y) acc
            (cmul (corrFac correct_mu (f s)) (σ c s)))
            (List.replicate (L c) 0))), db.info.dt⟩) := by
  obtain ⟨ds1, last1, hrun, hmem, hframe⟩ := finiteLoop_spec ext db receiver
    comps correct_mu sources.length f t σ L hnd sources 0 [] none hcore hσ hL
    (fun c hc p hp => by simp [getKey] at hp)
  obtain ⟨s0, rest, rfl⟩ : ∃ s0 rest, sources = s0 :: rest := by
    cases sources with
    | nil => exact absurd rfl hne
    | cons s0 rest => exact ⟨s0, rest, rfl⟩
  have hconv : ∀ c ∈ comps, getKey ds1 c
      = some ((s0 :: rest).foldl (fun acc s =>
          List.zipWith (fun x y => x + y) acc
            (cmul (corrFac correct_mu (f s)) (σ c s)))
          (List.replicate (L c) 0)) := by
    intro c hc
    rw [hmem c hc, List.foldl_cons, List.foldl_cons]
    have hlen0 : (cmul (corrFac correct_mu (f s0)) (σ c s0)).length = L c := by
      rw [cmul_length, hL s0 (by simp) c hc]
    have hz : List.zipWith (fun x y => x + y) (List.replicate (L c) (0 : ℚ))
        (cmul (corrFac correct_mu (f s0)) (σ c s0))
        = cmul (corrFac correct_mu (f s0)) (σ c s0) := by
      rw [← hlen0]
      exact zipWith_add_replicate_zero _
    rw [hz]
    have := optFold_eq
      (fun s => cmul (corrFac correct_mu (f s)) (σ c s)) rest
      (cmul (corrFac correct_mu (f s0)) (σ c s0))
      (fun s2 h2 => by
        rw [cmul_length, hL s2 (by simp [h2]) c hc, hlen0])
    exact this
  unfold getSeismogramsFiniteSource
  rw [hrec]
  simp only [Bool.not_true, Bool.false_eq_true, if_false, hrun]
  rw [tracesFor_spec ds1 _ comps hconv]


theorem c2_mu_scaling_witness :
    getSeismogramsFiniteSource extId db2 [src0, src1] rec0 ["Z"]
      "displacement" none 5 true none
      = .ok (some ⟨[("Z", [6, 6])], 1⟩) := by
  have hm : SrcKind.moment ≠ SrcKind.force := by decide
  have h := c2_mu_scaling extId db2 rec0 ["Z"] "displacement" 5 true
    [src0, src1]
    (fun s => if s.origin_time = some 1 then ⟨[("Z", [2, 2])], 64 * 10 ^ 9⟩
      else ⟨[("Z", [1, 1])], 64 * 10 ^ 9⟩)
    (fun _ => some 0)
    (fun _ s => if s.origin_time = some 1 then [2, 2] else [1, 1])
    (fun _ => 2)
    rfl (by simp) (by simp)
    (by
      intro s hs
      rcases List.mem_cons.mp hs with rfl | hs
      · norm_num [getSeismogramsCore, sanityChecks, compLoop, compBody,
          derivStage, getKey, setKey, kind_map, stf_map, tol, extId, db2,
          info0, src0, hm]
      · rw [List.mem_singleton] at hs
        subst hs
        norm_num [getSeismogramsCore, sanityChecks, compLoop, compBody,
          derivStage, getKey, setKey, kind_map, stf_map, tol, extId, db2,
          info0, src1, hm])
    (by
      intro s hs c hc
      rw [List.mem_singleton] at hc
      subst hc
      rcases List.mem_cons.mp hs with rfl | hs
      · norm_num [getKey, src0]
      · rw [List.mem_singleton] at hs
        subst hs
        norm_num [getKey, src1])
    (by
      intro s hs c hc
      rcases List.mem_cons.mp hs with rfl | hs
      · norm_num [src0]
      · rw [List.mem_singleton] at hs
        subst hs
        norm_num [src1])
  rw [h]
  norm_num [cmul, corrFac, DEFAULT_MU, src0, src1, db2, info0,
    List.zipWith, List.replicate]

/-- C8: get_seismograms_finite_source on a single point source with
correct_mu=false and no requested dt returns, for every requested component,
exactly the series that get_seismograms produces for that source with
reconvolve_stf=true and remove_source_shift=false (and a raw return). -/
theorem c8_single_source (ext : Extern) (db : Db) (s : Source)
    (receiver : Receiver) (comps : List Comp) (kind2 : String) (a : ℕ)
    (rd : RawData) (ts : Option ℚ) (σ : Comp → List ℚ)
    (hrec : db.info.is_reciprocal = true)
    (hnd : comps.Nodup)
    (hcore : (getSeismogramsCore ext db s receiver comps "displacement"
      false true none 5).2 = .ok (rd, ts))
    (hσ : ∀ c ∈ comps, getKey rd.series c = some (σ c)) :
    getSeismogramsFiniteSource ext db [s] receiver comps kind2 none a false
      none = .ok (some ⟨comps.map (fun c => (c, σ c)), db.info.dt⟩) ∧
    (getSeismograms ext db s receiver comps "displacement" false true false
      none 5).result = .ok (.raw rd) := by
  constructor
  · obtain ⟨ds1, last1, hrun, hmem, hframe⟩ := finiteLoop_spec ext db
      receiver comps false [s].length (fun _ => rd) (fun _ => ts)
      (fun c _ => σ c)
      (fun c => (σ c).length) hnd [s] 0 [] none
      (fun s2 h2 => by rw [List.mem_singleton] at h2; subst h2; exact hcore)
      (fun s2 _ => fun c hc => hσ c hc)
      (fun s2 _ => fun c _ => rfl)
      (fun c hc p hp => by simp [getKey] at hp)
    have hconv : ∀ c ∈ comps, getKey ds1 c = some (σ c) := by
      intro c hc
      rw [hmem c hc]
      show some (cmul (corrFac false rd) (σ c)) = some (σ c)
      rw [show corrFac false rd = 1 from rfl, cmul_one]
    unfold getSeismogramsFiniteSource
    rw [hrec]
    simp only [Bool.not_true, Bool.false_eq_true, if_false, hrun]
    rw [tracesFor_spec ds1 _ comps hconv]
  · simp [getSeismograms, hcore]


theorem c8_single_source_witness :
    getSeismogramsFiniteSource extId db0 [src0] rec0 ["Z"] "displacement"
      none 5 false none
      = .ok (some ⟨[("Z", [1, 1])], 1⟩) := by
  have hm : SrcKind.moment ≠ SrcKind.force := by decide
  have h := (c8_single_source extId db0 src0 rec0 ["Z"] "displacement" 5
    ⟨[("Z", [1, 1])], 1⟩ (some 0) (fun _ => [1, 1]) rfl (by simp)
    (by norm_num [getSeismogramsCore, sanityChecks, compLoop, compBody,
      derivStage, getKey, setKey, kind_map, stf_map, tol, extId, db0,
      info0, src0, hm])
    (by
      intro c hc
      rw [List.mem_singleton] at hc
      subst hc
      rfl)).1
  simpa [db0, info0] using h

end Instaseis
